import Mathlib

/-!
Verification of `server/google_directory_service.py` (password-alert).

The module is glue around external collaborators (OAuth credential store,
memcache, settings store, remote Directory API, `apiclient.discovery.build`).
We embed it shallowly:

* `World` is the mutable external state the module reads and writes:
  the stored credentials for the current domain (the ndb
  `CredentialsModel` entity), the memcache contents, and the settings store.
* `Env` packages the external oracles: `config.SERVICE_ACCOUNT` truthiness,
  `setup.LoadCredentialsFromPem`, the outcome of `apiclient.discovery.build`,
  and the two remote Directory API endpoints (user get, group-members list).
* Every operation returns `(result, world, events)` where `events` is the
  ordered trace of externally visible actions (cache reads/writes, remote
  calls, credential deletions), so "no cache access" / "exactly one listing
  call" claims are statable.
* Python exceptions become the `PyError` sum; Python dict values that the
  module inspects become `PyValue` with Python truthiness and `==`/`in`
  semantics.
-/

/-- Python values as far as this module inspects them: `None`, booleans,
integers and strings (the `isAdmin` field, member `email` fields). -/
inductive PyValue where
  | none
  | bool (b : Bool)
  | int (n : Int)
  | str (s : String)
deriving DecidableEq, Repr

/-- Python truthiness of a `PyValue` (used by `if user_info.get('isAdmin', ''):`). -/
def PyValue.truthy : PyValue → Bool
  | .none => false
  | .bool b => b
  | .int n => n != 0
  | .str s => s != ""

/-- Python `==` on the values above (`True == 1`, distinct types unequal). -/
def pyEq : PyValue → PyValue → Bool
  | .none, .none => true
  | .bool a, .bool b => a == b
  | .bool a, .int n => (if a then (1 : Int) else 0) == n
  | .int n, .bool b => n == (if b then (1 : Int) else 0)
  | .int a, .int b => a == b
  | .str a, .str b => a == b
  | _, _ => false

/-- Python `x in xs` for a list. -/
def pyMem (x : PyValue) (xs : List PyValue) : Bool :=
  xs.any (fun y => pyEq x y)

/-- A Python dict with string keys, as an association list. -/
abbrev PyDict := List (String × PyValue)

/-- Python `d.get(k)` returning `Option`. -/
def dictLookup (d : PyDict) (k : String) : Option PyValue :=
  match d.find? (fun kv => kv.1 == k) with
  | some kv => some kv.2
  | Option.none => Option.none

/-- Python `d.get(k, dflt)`. -/
def dictGetD (d : PyDict) (k : String) (dflt : PyValue) : PyValue :=
  (dictLookup d k).getD dflt

/-- Exceptions raised by the module or its collaborators. -/
inductive PyError where
  | accessTokenRefreshError
  | setupNeeded (msg : String)
  | keyError (key : String)
  | exception (msg : String)
  | httpError (msg : String)
deriving DecidableEq, Repr

/-- Python `d[k]`: `KeyError` when the key is absent. -/
def dictIndex (d : PyDict) (k : String) : Except PyError PyValue :=
  match dictLookup d k with
  | some v => Except.ok v
  | Option.none => Except.error (PyError.keyError k)

/-- An opaque OAuth credentials blob. -/
structure Credentials where
  id : Nat
deriving DecidableEq, Repr

/-- An authorized transport handle, `credentials.authorize(httplib2.Http())`. -/
structure Http where
  cred : Credentials
deriving DecidableEq, Repr

/-- `credentials.authorize(httplib2.Http())`: the handle carrying the credentials. -/
def authorize (c : Credentials) : Http := ⟨c⟩

/-- The built directory API service object. -/
structure Service where
  http : Http
deriving DecidableEq, Repr

/-- Response of the group-members listing endpoint: the optional `members`
key holds a list of member dicts (each expected to carry an `email`). -/
structure MembersResp where
  members : Option (List PyDict)
deriving DecidableEq, Repr

/-- Outcome of `apiclient.discovery.build` (external library call): success,
`NotImplementedError` (invalid PEM format), or some other exception. -/
inductive BuildOutcome where
  | success
  | notImplemented
  | failure (e : PyError)
deriving DecidableEq, Repr

/-- Externally visible actions, in order of occurrence. -/
inductive Event where
  | credGet
  | credDelete (domain : String)
  | getUserCall (email : String)
  | updateUserCall (email : String)
  | listMembersCall (groupKey : Option String)
  | cacheGet (key : String)
  | cacheSet (key : String) (value : List PyValue) (ttl : Nat)
deriving DecidableEq, Repr

/-- Memcache reads and writes of the admin-email entry. -/
def Event.isCacheEvent : Event → Bool
  | .cacheGet _ => true
  | .cacheSet _ _ _ => true
  | _ => false

/-- Remote group-members listing calls. -/
def Event.isListMembers : Event → Bool
  | .listMembersCall _ => true
  | _ => false

/-- Deletions of the stored credentials entity. -/
def Event.isCredDelete : Event → Bool
  | .credDelete _ => true
  | _ => false

/-- External mutable state: stored credentials for the current domain,
memcache (key to value and TTL), and the settings store. -/
structure World where
  credStore : Option Credentials
  memcache : List (String × (List PyValue × Nat))
  settings : List (String × String)
deriving DecidableEq, Repr

/-- `memcache.get(k)`: `None` when the key is absent. -/
def memcacheGet (w : World) (k : String) : Option (List PyValue) :=
  match w.memcache.find? (fun kv => kv.1 == k) with
  | some kv => some kv.2.1
  | Option.none => Option.none

/-- Full memcache entry including the stored TTL. -/
def memcacheLookup (w : World) (k : String) : Option (List PyValue × Nat) :=
  match w.memcache.find? (fun kv => kv.1 == k) with
  | some kv => some kv.2
  | Option.none => Option.none

/-- `memcache.set(k, v, ttl)`. -/
def memcacheSet (w : World) (k : String) (v : List PyValue) (ttl : Nat) : World :=
  { w with memcache := (k, (v, ttl)) :: w.memcache.filter (fun kv => kv.1 != k) }

/-- `datastore.Setting.get(k)`: `None` when unset. -/
def settingGet (w : World) (k : String) : Option String :=
  match w.settings.find? (fun kv => kv.1 == k) with
  | some kv => some kv.2
  | Option.none => Option.none

/-- Python truthiness of a `Setting.get` result (`None` and `''` are falsy). -/
def optStrTruthy : Option String → Bool
  | Option.none => false
  | some s => s != ""

/-- External oracles: the current domain, `config.SERVICE_ACCOUNT` truthiness,
`setup.LoadCredentialsFromPem`, the `build` outcome, and the two remote
Directory API endpoints. -/
structure Env where
  currentDomain : String
  serviceAccount : Bool
  loadPem : Except PyError Credentials
  buildOutcome : BuildOutcome
  getUser : String → Except PyError PyDict
  listMembers : Option String → Except PyError MembersResp

/-- `API_SERVICE_NAME = 'admin'`. -/
def API_SERVICE_NAME : String := "admin"

/-- `DIRECTORY_API_VERSION = 'directory_v1'`. -/
def DIRECTORY_API_VERSION : String := "directory_v1"

/-- `MEMCACHE_ADMIN_KEY = 'admins'`. -/
def MEMCACHE_ADMIN_KEY : String := "admins"

/-- `MEMCACHE_EXPIRATION_TIME_IN_SECONDS = 600`. -/
def MEMCACHE_TTL_SECONDS : Nat := 600

/-- The memcache key `datastore.CURRENT_DOMAIN + ':' + MEMCACHE_ADMIN_KEY`. -/
def adminCacheKey (env : Env) : String :=
  env.currentDomain ++ ":" ++ MEMCACHE_ADMIN_KEY

/-- The appengine user object (`user.email()`, `user.nickname()`). -/
structure AEUser where
  email : String
  nickname : String
deriving DecidableEq, Repr

/-- `_GetAuthorizedHttp(credentials=None)`: explicit credentials if given,
else stored credentials, else the PEM file when `config.SERVICE_ACCOUNT`,
else raise `SetupNeeded('Credentials not in storage')`. -/
def GetAuthorizedHttp (env : Env) (w : World) (credentials : Option Credentials) :
    Except PyError Http × World × List Event :=
  match credentials with
  | some c => (Except.ok (authorize c), w, [])
  | Option.none =>
      match w.credStore with
      | some c => (Except.ok (authorize c), w, [Event.credGet])
      | Option.none =>
          if env.serviceAccount then
            match env.loadPem with
            | Except.ok c => (Except.ok (authorize c), w, [Event.credGet])
            | Except.error e => (Except.error e, w, [Event.credGet])
          else
            (Except.error (PyError.setupNeeded "Credentials not in storage"), w,
             [Event.credGet])

/-- The message raised by `BuildService` on `NotImplementedError`. -/
def invalidPemMessage : String :=
  "The service account credentials are invalid.  " ++
  "Check to make sure you have a valid PEM file and you " ++
  "have removed any extra data attributes that may have " ++
  "been written to the PEM file when converted from " ++
  "PKCS12.  The existing PEM key has been revoked and " ++
  "needs to be updated with a new valid key."

/-- `BuildService(credentials=None)`: build the directory api service.
On `NotImplementedError` the stored credentials entity is deleted and a
descriptive `Exception` raised; everything else propagates. -/
def BuildService (env : Env) (w : World) (credentials : Option Credentials) :
    Except PyError Service × World × List Event :=
  match GetAuthorizedHttp env w credentials with
  | (Except.error e, w1, tr) => (Except.error e, w1, tr)
  | (Except.ok h, w1, tr) =>
      match env.buildOutcome with
      | BuildOutcome.success => (Except.ok ⟨h⟩, w1, tr)
      | BuildOutcome.notImplemented =>
          (Except.error (PyError.exception invalidPemMessage),
           { w1 with credStore := Option.none },
           tr ++ [Event.credDelete env.currentDomain])
      | BuildOutcome.failure e => (Except.error e, w1, tr)

/-- Python `for member in admin_group_info['members']: admin_emails.append(member['email'])`. -/
def extractEmails : List PyDict → Except PyError (List PyValue)
  | [] => Except.ok []
  | m :: ms =>
      match dictIndex m "email" with
      | Except.error e => Except.error e
      | Except.ok v =>
          match extractEmails ms with
          | Except.error e => Except.error e
          | Except.ok vs => Except.ok (v :: vs)

/-- `_GetAdminEmails()`: list the admin group's members, extract their
emails, store them in memcache under `{domain}:admins` with a 600 second
expiration, and return them. -/
def GetAdminEmails (env : Env) (w : World) :
    Except PyError (List PyValue) × World × List Event :=
  match BuildService env w Option.none with
  | (Except.error e, w1, tr) => (Except.error e, w1, tr)
  | (Except.ok _, w1, tr) =>
      let groupKey := settingGet w1 "admin_group"
      match env.listMembers groupKey with
      | Except.error e => (Except.error e, w1, tr ++ [Event.listMembersCall groupKey])
      | Except.ok resp =>
          match resp.members with
          | Option.none =>
              (Except.error (PyError.keyError "members"), w1,
               tr ++ [Event.listMembersCall groupKey])
          | some members =>
              match extractEmails members with
              | Except.error e =>
                  (Except.error e, w1, tr ++ [Event.listMembersCall groupKey])
              | Except.ok admin_emails =>
                  (Except.ok admin_emails,
                   memcacheSet w1 (adminCacheKey env) admin_emails MEMCACHE_TTL_SECONDS,
                   tr ++ [Event.listMembersCall groupKey,
                          Event.cacheSet (adminCacheKey env) admin_emails MEMCACHE_TTL_SECONDS])

/-- `GetUserInfo(user_email)`: build the service and call the user-get
endpoint; the raw record (or the endpoint's exception) is returned. -/
def GetUserInfo (env : Env) (w : World) (user_email : String) :
    Except PyError PyDict × World × List Event :=
  match BuildService env w Option.none with
  | (Except.error e, w1, tr) => (Except.error e, w1, tr)
  | (Except.ok _, w1, tr) =>
      match env.getUser user_email with
      | Except.ok user_info =>
          (Except.ok user_info, w1, tr ++ [Event.getUserCall user_email])
      | Except.error e => (Except.error e, w1, tr ++ [Event.getUserCall user_email])

/-- Steps 3 and 4 of `IsInAdminGroup` (after the `isAdmin` short-circuit):
require the `admin_group` setting, then consult memcache, then fall back to
`_GetAdminEmails`. -/
def adminGroupCheck (env : Env) (w : World) (user : AEUser) :
    Except PyError Bool × World × List Event :=
  if !optStrTruthy (settingGet w "admin_group") then
    (Except.error (PyError.exception "You must configure ADMIN_GROUP in config.py"), w, [])
  else
    match memcacheGet w (adminCacheKey env) with
    | some cached_admin_emails =>
        (Except.ok (pyMem (PyValue.str user.email) cached_admin_emails), w,
         [Event.cacheGet (adminCacheKey env)])
    | Option.none =>
        match GetAdminEmails env w with
        | (Except.error e, w1, tr) =>
            (Except.error e, w1, Event.cacheGet (adminCacheKey env) :: tr)
        | (Except.ok admin_emails, w1, tr) =>
            (Except.ok (pyMem (PyValue.str user.email) admin_emails), w1,
             Event.cacheGet (adminCacheKey env) :: tr)

/-- Prefix a trace onto a result triple. -/
def prependEvents (tr : List Event) (r : Except PyError Bool × World × List Event) :
    Except PyError Bool × World × List Event :=
  (r.1, r.2.1, tr ++ r.2.2)

/-- `IsInAdminGroup(user)`: fetch the user's record (translating
`AccessTokenRefreshError` into credential deletion plus `SetupNeeded`),
short-circuit on a truthy `isAdmin`, then run the group check. -/
def IsInAdminGroup (env : Env) (w : World) (user : AEUser) :
    Except PyError Bool × World × List Event :=
  match GetUserInfo env w user.email with
  | (Except.error PyError.accessTokenRefreshError, w1, tr) =>
      (Except.error (PyError.setupNeeded "oauth token no longer valid"),
       { w1 with credStore := Option.none },
       tr ++ [Event.credDelete env.currentDomain])
  | (Except.error e, w1, tr) => (Except.error e, w1, tr)
  | (Except.ok user_info, w1, tr) =>
      if (dictGetD user_info "isAdmin" (PyValue.str "")).truthy then
        (Except.ok true, w1, tr)
      else
        prependEvents tr (adminGroupCheck env w1 user)

/-- `UpdateUserInfo(user_email, new_user_info)`: build the service and call
the user-update endpoint. -/
def UpdateUserInfo (env : Env) (w : World) (user_email : String) (_new_user_info : PyDict) :
    Except PyError Unit × World × List Event :=
  match BuildService env w Option.none with
  | (Except.error e, w1, tr) => (Except.error e, w1, tr)
  | (Except.ok _, w1, tr) =>
      (Except.ok (), w1, tr ++ [Event.updateUserCall user_email])

/-- `_GetAuthorizedHttp` never changes the world. -/
theorem getAuthorizedHttp_world (env : Env) (w : World) (c : Option Credentials) :
    (GetAuthorizedHttp env w c).2.1 = w := by
  unfold GetAuthorizedHttp
  cases c with
  | some cr => rfl
  | none =>
      cases w.credStore with
      | some cr => rfl
      | none =>
          cases hsa : env.serviceAccount with
          | true => simp only [hsa]; cases env.loadPem <;> rfl
          | false => simp only [hsa]; rfl

/-- `_GetAuthorizedHttp` only ever reads the credential store. -/
theorem getAuthorizedHttp_events (env : Env) (w : World) (c : Option Credentials) :
    ∀ ev ∈ (GetAuthorizedHttp env w c).2.2, ev = Event.credGet := by
  unfold GetAuthorizedHttp
  cases c with
  | some cr => simp
  | none =>
      cases w.credStore with
      | some cr => simp
      | none =>
          cases hsa : env.serviceAccount with
          | true => simp only [hsa]; cases env.loadPem <;> simp
          | false => simp only [hsa]; simp

/-- When `BuildService` succeeds the world is unchanged and only the
credential store was read. -/
theorem buildService_ok (env : Env) (w : World) (c : Option Credentials)
    (s : Service) (w1 : World) (tr : List Event)
    (h : BuildService env w c = (Except.ok s, w1, tr)) :
    w1 = w ∧ ∀ ev ∈ tr, ev = Event.credGet := by
  unfold BuildService at h
  rcases hga : GetAuthorizedHttp env w c with ⟨r, w2, tr2⟩
  rw [hga] at h
  have hw2 : w2 = w := by
    have := getAuthorizedHttp_world env w c
    rw [hga] at this; exact this
  have hev : ∀ ev ∈ tr2, ev = Event.credGet := by
    have := getAuthorizedHttp_events env w c
    rw [hga] at this; exact this
  cases r with
  | error e => simp at h
  | ok hh =>
      cases hbo : env.buildOutcome with
      | success =>
          rw [hbo] at h
          simp only [Prod.mk.injEq] at h
          exact ⟨h.2.1 ▸ hw2, h.2.2 ▸ hev⟩
      | notImplemented => rw [hbo] at h; simp at h
      | failure e => rw [hbo] at h; simp at h

/-- `BuildService` never touches memcache or the settings store. -/
theorem buildService_preserves (env : Env) (w : World) (c : Option Credentials) :
    (BuildService env w c).2.1.memcache = w.memcache ∧
    (BuildService env w c).2.1.settings = w.settings := by
  unfold BuildService
  rcases hga : GetAuthorizedHttp env w c with ⟨r, w2, tr2⟩
  have hw2 : w2 = w := by
    have := getAuthorizedHttp_world env w c
    rw [hga] at this; exact this
  subst hw2
  cases r with
  | error e => simp
  | ok hh => cases env.buildOutcome <;> simp

/-- When `GetUserInfo` succeeds, the world is unchanged, the record is the
remote endpoint's answer, and the trace holds only a credential read and the
user-get call. -/
theorem getUserInfo_ok (env : Env) (w : World) (email : String)
    (uinfo : PyDict) (w1 : World) (tr : List Event)
    (h : GetUserInfo env w email = (Except.ok uinfo, w1, tr)) :
    w1 = w ∧ env.getUser email = Except.ok uinfo ∧
    ∀ ev ∈ tr, ev = Event.credGet ∨ ev = Event.getUserCall email := by
  unfold GetUserInfo at h
  rcases hbs : BuildService env w Option.none with ⟨r, w2, tr2⟩
  rw [hbs] at h
  cases r with
  | error e => simp at h
  | ok svc =>
      rcases buildService_ok env w Option.none svc w2 tr2 hbs with ⟨hw2, hev⟩
      cases hgu : env.getUser email with
      | ok rec0 =>
          rw [hgu] at h
          simp only [Prod.mk.injEq] at h
          obtain ⟨hr1, hr2, hr3⟩ := h
          injection hr1 with hrec
          subst hrec
          subst hr2
          refine ⟨hw2, rfl, ?_⟩
          intro ev hmem
          rw [← hr3] at hmem
          rcases List.mem_append.mp hmem with hl | hr
          · exact Or.inl (hev ev hl)
          · simp at hr; exact Or.inr hr
      | error e => rw [hgu] at h; simp at h

/-- `GetUserInfo` never touches memcache or the settings store (in every
outcome, including failures). -/
theorem getUserInfo_preserves (env : Env) (w : World) (email : String) :
    (GetUserInfo env w email).2.1.memcache = w.memcache ∧
    (GetUserInfo env w email).2.1.settings = w.settings := by
  unfold GetUserInfo
  rcases hbs : BuildService env w Option.none with ⟨r, w2, tr2⟩
  have hpres : w2.memcache = w.memcache ∧ w2.settings = w.settings := by
    have := buildService_preserves env w Option.none
    rw [hbs] at this; exact this
  cases r with
  | error e => simpa using hpres
  | ok svc => cases env.getUser email <;> simpa using hpres

/-- Reading back the key just written to memcache yields the value and TTL. -/
theorem memcacheSet_lookup (w : World) (k : String) (v : List PyValue) (ttl : Nat) :
    memcacheLookup (memcacheSet w k v ttl) k = some (v, ttl) := by
  unfold memcacheLookup memcacheSet
  simp

/-- The cache-miss refill: when the service builds, the listing endpoint
answers, the response carries `members`, and every member has an `email`,
`_GetAdminEmails` returns the extracted emails, writes them to memcache
under `{domain}:admins` with TTL 600, and its trace ends with exactly the
listing call and the cache write. -/
theorem getAdminEmails_ok_of (env : Env) (w : World)
    (svc : Service) (wB : World) (trB : List Event)
    (resp : MembersResp) (members : List PyDict) (emails : List PyValue)
    (hbs : BuildService env w Option.none = (Except.ok svc, wB, trB))
    (hlm : env.listMembers (settingGet w "admin_group") = Except.ok resp)
    (hmem : resp.members = some members)
    (hext : extractEmails members = Except.ok emails) :
    GetAdminEmails env w =
      (Except.ok emails,
       memcacheSet w (adminCacheKey env) emails MEMCACHE_TTL_SECONDS,
       trB ++ [Event.listMembersCall (settingGet w "admin_group"),
               Event.cacheSet (adminCacheKey env) emails MEMCACHE_TTL_SECONDS]) := by
  obtain ⟨hwB, hev⟩ := buildService_ok env w Option.none svc wB trB hbs
  subst hwB
  unfold GetAdminEmails
  rw [hbs]
  simp only [hlm, hmem, hext]

/-- The cache-miss refill when the listing endpoint raises: the exception
propagates, the world is unchanged, and the trace ends with the listing
call only (no cache write, no credential deletion). -/
theorem getAdminEmails_err_of (env : Env) (w : World)
    (svc : Service) (wB : World) (trB : List Event) (e : PyError)
    (hbs : BuildService env w Option.none = (Except.ok svc, wB, trB))
    (hlm : env.listMembers (settingGet w "admin_group") = Except.error e) :
    GetAdminEmails env w =
      (Except.error e, w,
       trB ++ [Event.listMembersCall (settingGet w "admin_group")]) := by
  obtain ⟨hwB, hev⟩ := buildService_ok env w Option.none svc wB trB hbs
  subst hwB
  unfold GetAdminEmails
  rw [hbs]
  simp only [hlm]

/-- Claim C1: for every user whose directory record has a true `isAdmin`
flag, `IsInAdminGroup` returns true immediately after the get-user call,
with no admin-email cache read or write and no group-members listing call. -/
theorem claim1_domain_admin_short_circuit
    (env : Env) (w : World) (user : AEUser) (uinfo : PyDict)
    (w1 : World) (tr1 : List Event)
    (hget : GetUserInfo env w user.email = (Except.ok uinfo, w1, tr1))
    (hadmin : dictLookup uinfo "isAdmin" = some (PyValue.bool true)) :
    IsInAdminGroup env w user = (Except.ok true, w1, tr1) ∧
    ∀ ev ∈ tr1, ev.isCacheEvent = false ∧ ev.isListMembers = false := by
  have htr := (getUserInfo_ok env w user.email uinfo w1 tr1 hget).2.2
  constructor
  · unfold IsInAdminGroup
    rw [hget]
    simp [dictGetD, hadmin, PyValue.truthy]
  · intro ev hmem
    rcases htr ev hmem with h | h <;> subst h <;> exact ⟨rfl, rfl⟩

/-- Claim C4: if the get-user call inside `IsInAdminGroup` raises
`AccessTokenRefreshError`, the stored credentials for the current domain
are deleted and `SetupNeeded` is raised; the admin-email cache and the
settings store are untouched. -/
theorem claim4_refresh_error_invalidates
    (env : Env) (w : World) (user : AEUser) (w1 : World) (tr1 : List Event)
    (hget : GetUserInfo env w user.email =
      (Except.error PyError.accessTokenRefreshError, w1, tr1)) :
    IsInAdminGroup env w user =
      (Except.error (PyError.setupNeeded "oauth token no longer valid"),
       { w1 with credStore := Option.none },
       tr1 ++ [Event.credDelete env.currentDomain]) ∧
    ({ w1 with credStore := Option.none } : World).credStore = Option.none ∧
    ({ w1 with credStore := Option.none } : World).memcache = w.memcache ∧
    ({ w1 with credStore := Option.none } : World).settings = w.settings := by
  have hpres := getUserInfo_preserves env w user.email
  rw [hget] at hpres
  refine ⟨?_, rfl, hpres.1, hpres.2⟩
  unfold IsInAdminGroup
  rw [hget]

/-- Claim C5: for a domain with no `admin_group` setting, `IsInAdminGroup`
on a non-domain-admin user raises the configuration error, with no
admin-email cache access and no group-members listing call. -/
theorem claim5_missing_admin_group
    (env : Env) (w : World) (user : AEUser) (uinfo : PyDict)
    (w1 : World) (tr1 : List Event)
    (hget : GetUserInfo env w user.email = (Except.ok uinfo, w1, tr1))
    (hnotadmin : (dictGetD uinfo "isAdmin" (PyValue.str "")).truthy = false)
    (hnogroup : settingGet w1 "admin_group" = Option.none) :
    IsInAdminGroup env w user =
      (Except.error (PyError.exception "You must configure ADMIN_GROUP in config.py"),
       w1, tr1) ∧
    ∀ ev ∈ tr1, ev.isCacheEvent = false ∧ ev.isListMembers = false := by
  have htr := (getUserInfo_ok env w user.email uinfo w1 tr1 hget).2.2
  constructor
  · unfold IsInAdminGroup
    rw [hget]
    simp [hnotadmin, prependEvents, adminGroupCheck, hnogroup, optStrTruthy]
  · intro ev hmem
    rcases htr ev hmem with h | h <;> subst h <;> exact ⟨rfl, rfl⟩

/-- Claim C8: a successful `GetUserInfo` leaves the world unchanged (in
particular the admin-email cache and the stored credentials), and an
immediately repeated call returns a structurally equal record. -/
theorem claim8_getUserInfo_idempotent
    (env : Env) (w : World) (email : String) (uinfo : PyDict)
    (w1 : World) (tr1 : List Event)
    (hget : GetUserInfo env w email = (Except.ok uinfo, w1, tr1)) :
    w1 = w ∧
    GetUserInfo env w1 email = (Except.ok uinfo, w1, tr1) ∧
    w1.memcache = w.memcache ∧ w1.credStore = w.credStore := by
  obtain ⟨hw, -, -⟩ := getUserInfo_ok env w email uinfo w1 tr1 hget
  subst hw
  exact ⟨rfl, hget, rfl, rfl⟩

/-- Claim C10: the domain-admin test is `user_info.get('isAdmin', '')` under
Python truthiness: a missing key or any falsy value (`False`, `''`, `0`,
`None`) sends the check to the group-membership path, while any truthy
value (not just `True`, e.g. a non-empty string) returns true immediately. -/
theorem claim10_isAdmin_truthiness
    (env : Env) (w : World) (user : AEUser) (uinfo : PyDict)
    (w1 : World) (tr1 : List Event)
    (hget : GetUserInfo env w user.email = (Except.ok uinfo, w1, tr1)) :
    (PyValue.truthy (PyValue.bool false) = false ∧
     PyValue.truthy (PyValue.str "") = false ∧
     PyValue.truthy (PyValue.int 0) = false ∧
     PyValue.truthy PyValue.none = false ∧
     PyValue.truthy (PyValue.bool true) = true ∧
     PyValue.truthy (PyValue.str "yes") = true) ∧
    (∀ v, dictLookup uinfo "isAdmin" = some v → v.truthy = true →
        IsInAdminGroup env w user = (Except.ok true, w1, tr1)) ∧
    ((dictLookup uinfo "isAdmin" = Option.none ∨
      (∃ v, dictLookup uinfo "isAdmin" = some v ∧ v.truthy = false)) →
        IsInAdminGroup env w user =
          prependEvents tr1 (adminGroupCheck env w1 user)) := by
  refine ⟨by refine ⟨rfl, ?_, by decide, rfl, rfl, ?_⟩ <;> decide, ?_, ?_⟩
  · intro v hv htv
    unfold IsInAdminGroup
    rw [hget]
    simp [dictGetD, hv, htv]
  · intro hfalsy
    unfold IsInAdminGroup
    rw [hget]
    rcases hfalsy with hnone | ⟨v, hv, htv⟩
    · simp [dictGetD, hnone, PyValue.truthy]
    · simp [dictGetD, hv, htv]

/-- Claim C3: for a non-domain-admin user with the admin-email cache entry
present (empty included), `IsInAdminGroup` returns exactly the membership of
the user's email in the cached sequence, and no group-members listing call
is made. -/
theorem claim3_cache_hit
    (env : Env) (w : World) (user : AEUser) (uinfo : PyDict)
    (w1 : World) (tr1 : List Event) (cached : List PyValue)
    (hget : GetUserInfo env w user.email = (Except.ok uinfo, w1, tr1))
    (hnotadmin : (dictGetD uinfo "isAdmin" (PyValue.str "")).truthy = false)
    (hgroup : optStrTruthy (settingGet w1 "admin_group") = true)
    (hhit : memcacheGet w1 (adminCacheKey env) = some cached) :
    IsInAdminGroup env w user =
      (Except.ok (pyMem (PyValue.str user.email) cached), w1,
       tr1 ++ [Event.cacheGet (adminCacheKey env)]) ∧
    (tr1 ++ [Event.cacheGet (adminCacheKey env)]).countP Event.isListMembers = 0 := by
  have htr := (getUserInfo_ok env w user.email uinfo w1 tr1 hget).2.2
  constructor
  · unfold IsInAdminGroup
    rw [hget]
    simp [hnotadmin, prependEvents, adminGroupCheck, hgroup, hhit]
  · rw [List.countP_append]
    have h1 : tr1.countP Event.isListMembers = 0 := by
      rw [List.countP_eq_zero]
      intro ev hmem
      rcases htr ev hmem with h | h <;> subst h <;> simp [Event.isListMembers]
    rw [h1]
    rfl

/-- Claim C2: for a non-domain-admin user with `admin_group` configured and
the admin-email cache entry absent, `IsInAdminGroup` makes exactly one
group-members listing call, writes the extracted emails to memcache under
`{domain}:admins` with a 600-second expiration, and returns exactly the
membership of the user's email in the extracted emails. -/
theorem claim2_cache_miss
    (env : Env) (w : World) (user : AEUser) (uinfo : PyDict)
    (w1 : World) (tr1 : List Event) (svc : Service) (wB : World) (trB : List Event)
    (resp : MembersResp) (members : List PyDict) (emails : List PyValue)
    (hget : GetUserInfo env w user.email = (Except.ok uinfo, w1, tr1))
    (hnotadmin : (dictGetD uinfo "isAdmin" (PyValue.str "")).truthy = false)
    (hgroup : optStrTruthy (settingGet w1 "admin_group") = true)
    (hmiss : memcacheGet w1 (adminCacheKey env) = Option.none)
    (hbs : BuildService env w1 Option.none = (Except.ok svc, wB, trB))
    (hlm : env.listMembers (settingGet w1 "admin_group") = Except.ok resp)
    (hmem : resp.members = some members)
    (hext : extractEmails members = Except.ok emails) :
    IsInAdminGroup env w user =
      (Except.ok (pyMem (PyValue.str user.email) emails),
       memcacheSet w1 (adminCacheKey env) emails MEMCACHE_TTL_SECONDS,
       tr1 ++ Event.cacheGet (adminCacheKey env) ::
         (trB ++ [Event.listMembersCall (settingGet w1 "admin_group"),
                  Event.cacheSet (adminCacheKey env) emails MEMCACHE_TTL_SECONDS])) ∧
    memcacheLookup
        (memcacheSet w1 (adminCacheKey env) emails MEMCACHE_TTL_SECONDS)
        (adminCacheKey env) = some (emails, MEMCACHE_TTL_SECONDS) ∧
    (tr1 ++ Event.cacheGet (adminCacheKey env) ::
       (trB ++ [Event.listMembersCall (settingGet w1 "admin_group"),
                Event.cacheSet (adminCacheKey env) emails MEMCACHE_TTL_SECONDS])).countP
        Event.isListMembers = 1 ∧
    MEMCACHE_TTL_SECONDS = 600 := by
  have htr := (getUserInfo_ok env w user.email uinfo w1 tr1 hget).2.2
  obtain ⟨hwB, hevB⟩ := buildService_ok env w1 Option.none svc wB trB hbs
  have hgae := getAdminEmails_ok_of env w1 svc wB trB resp members emails hbs hlm hmem hext
  refine ⟨?_, memcacheSet_lookup _ _ _ _, ?_, rfl⟩
  · unfold IsInAdminGroup
    rw [hget]
    simp only [hnotadmin, Bool.false_eq_true, if_false]
    unfold adminGroupCheck
    rw [hgroup]
    simp only [Bool.not_true, Bool.false_eq_true, if_false]
    rw [hmiss, hgae]
    rfl
  · have h1 : tr1.countP Event.isListMembers = 0 := by
      rw [List.countP_eq_zero]
      intro ev hmemv
      rcases htr ev hmemv with h | h <;> subst h <;> simp [Event.isListMembers]
    have h2 : trB.countP Event.isListMembers = 0 := by
      rw [List.countP_eq_zero]
      intro ev hmemv
      rw [hevB ev hmemv]
      simp [Event.isListMembers]
    rw [List.countP_append, h1, List.countP_cons_of_neg, List.countP_append, h2]
    · rfl
    · simp [Event.isListMembers]

/-- Claim C9: if the group-members listing call on the cache-miss path
raises `AccessTokenRefreshError`, the error propagates unchanged: the
stored credentials are not deleted and `SetupNeeded` is not raised (the
refresh-token handler wraps only the get-user call). -/
theorem claim9_list_error_propagates
    (env : Env) (w : World) (user : AEUser) (uinfo : PyDict)
    (w1 : World) (tr1 : List Event) (svc : Service) (wB : World) (trB : List Event)
    (hget : GetUserInfo env w user.email = (Except.ok uinfo, w1, tr1))
    (hnotadmin : (dictGetD uinfo "isAdmin" (PyValue.str "")).truthy = false)
    (hgroup : optStrTruthy (settingGet w1 "admin_group") = true)
    (hmiss : memcacheGet w1 (adminCacheKey env) = Option.none)
    (hbs : BuildService env w1 Option.none = (Except.ok svc, wB, trB))
    (hlm : env.listMembers (settingGet w1 "admin_group") =
      Except.error PyError.accessTokenRefreshError) :
    IsInAdminGroup env w user =
      (Except.error PyError.accessTokenRefreshError, w1,
       tr1 ++ Event.cacheGet (adminCacheKey env) ::
         (trB ++ [Event.listMembersCall (settingGet w1 "admin_group")])) ∧
    w1.credStore = w.credStore ∧
    ∀ ev ∈ tr1 ++ Event.cacheGet (adminCacheKey env) ::
         (trB ++ [Event.listMembersCall (settingGet w1 "admin_group")]),
      ev.isCredDelete = false := by
  have htr := (getUserInfo_ok env w user.email uinfo w1 tr1 hget).2.2
  have hw1 := (getUserInfo_ok env w user.email uinfo w1 tr1 hget).1
  obtain ⟨hwB, hevB⟩ := buildService_ok env w1 Option.none svc wB trB hbs
  have hgae := getAdminEmails_err_of env w1 svc wB trB
    PyError.accessTokenRefreshError hbs hlm
  refine ⟨?_, by rw [hw1], ?_⟩
  · unfold IsInAdminGroup
    rw [hget]
    simp only [hnotadmin, Bool.false_eq_true, if_false]
    unfold adminGroupCheck
    rw [hgroup]
    simp only [Bool.not_true, Bool.false_eq_true, if_false]
    rw [hmiss, hgae]
    rfl
  · intro ev hmemv
    rcases List.mem_append.mp hmemv with h | h
    · rcases htr ev h with h1 | h1 <;> subst h1 <;> rfl
    · rcases List.mem_cons.mp h with h1 | h1
      · subst h1; rfl
      · rcases List.mem_append.mp h1 with h2 | h2
        · rw [hevB ev h2]; rfl
        · simp at h2; subst h2; rfl

/-- Claim C6: the credential lookup is an ordered fallback chain stopping
at the first source that yields credentials: explicit credentials are used
directly; else stored credentials under the fixed key; else, with
service-account mode configured, the PEM key file; else `SetupNeeded`. -/
theorem claim6_credential_fallback_chain (env : Env) (w : World) :
    (∀ c, GetAuthorizedHttp env w (some c) = (Except.ok (authorize c), w, [])) ∧
    (∀ c, w.credStore = some c →
        GetAuthorizedHttp env w Option.none =
          (Except.ok (authorize c), w, [Event.credGet])) ∧
    (w.credStore = Option.none → env.serviceAccount = true →
        GetAuthorizedHttp env w Option.none =
          (env.loadPem.map authorize, w, [Event.credGet])) ∧
    (w.credStore = Option.none → env.serviceAccount = false →
        GetAuthorizedHttp env w Option.none =
          (Except.error (PyError.setupNeeded "Credentials not in storage"), w,
           [Event.credGet])) := by
  refine ⟨fun c => rfl, fun c hc => ?_, fun hc hsa => ?_, fun hc hsa => ?_⟩
  · unfold GetAuthorizedHttp
    rw [hc]
  · unfold GetAuthorizedHttp
    rw [hc]
    simp only [hsa, if_true]
    cases env.loadPem <;> rfl
  · unfold GetAuthorizedHttp
    rw [hc]
    simp [hsa]

/-- Claim C7: if `build` raises `NotImplementedError`, `BuildService`
deletes the stored credentials for the current domain and raises the
descriptive regenerate-the-key error; any other failure during building
(including a failing credential lookup) propagates unchanged with the
stored credentials intact. -/
theorem claim7_buildService_error_handling (env : Env) (w : World)
    (c : Option Credentials) :
    (∀ h w1 tr, GetAuthorizedHttp env w c = (Except.ok h, w1, tr) →
      (env.buildOutcome = BuildOutcome.notImplemented →
        BuildService env w c =
          (Except.error (PyError.exception invalidPemMessage),
           { w1 with credStore := Option.none },
           tr ++ [Event.credDelete env.currentDomain])) ∧
      (∀ e, env.buildOutcome = BuildOutcome.failure e →
        BuildService env w c = (Except.error e, w1, tr) ∧ w1.credStore = w.credStore)) ∧
    (∀ e w1 tr, GetAuthorizedHttp env w c = (Except.error e, w1, tr) →
      BuildService env w c = (Except.error e, w1, tr) ∧ w1.credStore = w.credStore) := by
  constructor
  · intro h w1 tr hga
    have hw1 : w1 = w := by
      have := getAuthorizedHttp_world env w c
      rw [hga] at this; exact this
    constructor
    · intro hbo
      unfold BuildService
      rw [hga, hbo]
    · intro e hbo
      refine ⟨?_, by rw [hw1]⟩
      unfold BuildService
      rw [hga, hbo]
  · intro e w1 tr hga
    have hw1 : w1 = w := by
      have := getAuthorizedHttp_world env w c
      rw [hga] at this; exact this
    refine ⟨?_, by rw [hw1]⟩
    unfold BuildService
    rw [hga]

/-- A concrete stored credential used by the example runs below. -/
def cred0 : Credentials := ⟨0⟩

/-- A domain-admin user for the example runs. -/
def userBoss : AEUser := ⟨"boss@x.com", "boss"⟩

/-- A plain user for the example runs. -/
def userAlice : AEUser := ⟨"alice@x.com", "alice"⟩

/-- Directory record of a domain admin. -/
def recAdmin : PyDict := [("isAdmin", PyValue.bool true)]

/-- Directory record with no `isAdmin` key. -/
def recPlain : PyDict := []

/-- A group-members listing response with one member. -/
def respA : MembersResp := ⟨some [[("email", PyValue.str "alice@x.com")]]⟩

/-- A fully working environment: stored credentials resolve, `build`
succeeds, the get-user endpoint knows `boss@x.com` as admin, and the
listing endpoint returns `respA`. -/
def envBase : Env :=
  { currentDomain := "x.com"
    serviceAccount := false
    loadPem := Except.error (PyError.httpError "no pem")
    buildOutcome := BuildOutcome.success
    getUser := fun e =>
      if e == "boss@x.com" then Except.ok recAdmin else Except.ok recPlain
    listMembers := fun _ => Except.ok respA }

/-- A world with stored credentials, empty memcache, and `admin_group` set. -/
def wBase : World :=
  { credStore := some cred0
    memcache := []
    settings := [("admin_group", "admins@x.com")] }

/-- The environment of `envBase` with the get-user endpoint raising
`AccessTokenRefreshError`. -/
def envRefreshFail : Env :=
  { envBase with getUser := fun _ => Except.error PyError.accessTokenRefreshError }

/-- The environment of `envBase` with the listing endpoint raising
`AccessTokenRefreshError`. -/
def envListFail : Env :=
  { envBase with listMembers := fun _ => Except.error PyError.accessTokenRefreshError }

/-- The environment of `envBase` with `build` raising `NotImplementedError`. -/
def envBadPem : Env :=
  { envBase with buildOutcome := BuildOutcome.notImplemented }

/-- The world of `wBase` with a populated admin-email cache entry. -/
def wCached : World :=
  { wBase with memcache :=
      [("x.com:admins", ([PyValue.str "alice@x.com", PyValue.str "bob@x.com"], 600))] }

/-- The world of `wBase` with no `admin_group` setting. -/
def wNoGroup : World := { wBase with settings := [] }

/-- Witness for C1: `boss@x.com` has `isAdmin: True` and is accepted with
only a credential read and the get-user call in the trace. -/
theorem claim1_witness :
    IsInAdminGroup envBase wBase userBoss =
      (Except.ok true, wBase, [Event.credGet, Event.getUserCall "boss@x.com"]) :=
  (claim1_domain_admin_short_circuit envBase wBase userBoss recAdmin wBase
    [Event.credGet, Event.getUserCall "boss@x.com"] rfl rfl).1

/-- Witness for C2: a cache miss for `alice@x.com` triggers the listing
call, the cache write with TTL 600, and a true answer. -/
theorem claim2_witness :
    IsInAdminGroup envBase wBase userAlice =
      (Except.ok (pyMem (PyValue.str userAlice.email) [PyValue.str "alice@x.com"]),
       memcacheSet wBase (adminCacheKey envBase) [PyValue.str "alice@x.com"]
         MEMCACHE_TTL_SECONDS,
       [Event.credGet, Event.getUserCall "alice@x.com"] ++
         Event.cacheGet (adminCacheKey envBase) ::
           ([Event.credGet] ++
             [Event.listMembersCall (settingGet wBase "admin_group"),
              Event.cacheSet (adminCacheKey envBase) [PyValue.str "alice@x.com"]
                MEMCACHE_TTL_SECONDS])) :=
  (claim2_cache_miss envBase wBase userAlice recPlain wBase
    [Event.credGet, Event.getUserCall "alice@x.com"]
    ⟨authorize cred0⟩ wBase [Event.credGet]
    respA [[("email", PyValue.str "alice@x.com")]] [PyValue.str "alice@x.com"]
    rfl rfl rfl rfl rfl rfl rfl rfl).1

/-- Witness for C3: with a populated cache entry, `alice@x.com` is answered
from the cache. -/
theorem claim3_witness :
    IsInAdminGroup envBase wCached userAlice =
      (Except.ok (pyMem (PyValue.str userAlice.email)
         [PyValue.str "alice@x.com", PyValue.str "bob@x.com"]),
       wCached,
       [Event.credGet, Event.getUserCall "alice@x.com"] ++
         [Event.cacheGet (adminCacheKey envBase)]) :=
  (claim3_cache_hit envBase wCached userAlice recPlain wCached
    [Event.credGet, Event.getUserCall "alice@x.com"]
    [PyValue.str "alice@x.com", PyValue.str "bob@x.com"]
    rfl rfl rfl rfl).1

/-- Witness for C4: a refresh-token failure on get-user deletes the stored
credentials and raises `SetupNeeded`. -/
theorem claim4_witness :
    IsInAdminGroup envRefreshFail wBase userAlice =
      (Except.error (PyError.setupNeeded "oauth token no longer valid"),
       { wBase with credStore := Option.none },
       [Event.credGet, Event.getUserCall "alice@x.com"] ++
         [Event.credDelete envRefreshFail.currentDomain]) :=
  (claim4_refresh_error_invalidates envRefreshFail wBase userAlice wBase
    [Event.credGet, Event.getUserCall "alice@x.com"] rfl).1

/-- Witness for C5: with no `admin_group` setting the configuration error
is raised right after the get-user call. -/
theorem claim5_witness :
    IsInAdminGroup envBase wNoGroup userAlice =
      (Except.error (PyError.exception "You must configure ADMIN_GROUP in config.py"),
       wNoGroup, [Event.credGet, Event.getUserCall "alice@x.com"]) :=
  (claim5_missing_admin_group envBase wNoGroup userAlice recPlain wNoGroup
    [Event.credGet, Event.getUserCall "alice@x.com"] rfl rfl rfl).1

/-- Witness for C6: with stored credentials present, the chain stops at the
credential store. -/
theorem claim6_witness :
    GetAuthorizedHttp envBase wBase Option.none =
      (Except.ok (authorize cred0), wBase, [Event.credGet]) :=
  (claim6_credential_fallback_chain envBase wBase).2.1 cred0 rfl

/-- Witness for C7: the `NotImplementedError` outcome deletes the stored
credentials and raises the descriptive error. -/
theorem claim7_witness :
    BuildService envBadPem wBase Option.none =
      (Except.error (PyError.exception invalidPemMessage),
       { wBase with credStore := Option.none },
       [Event.credGet] ++ [Event.credDelete envBadPem.currentDomain]) :=
  ((claim7_buildService_error_handling envBadPem wBase Option.none).1
    (authorize cred0) wBase [Event.credGet] rfl).1 rfl

/-- Witness for C8: a second `GetUserInfo` for `alice@x.com` returns the
same record from the same world. -/
theorem claim8_witness :
    GetUserInfo envBase wBase "alice@x.com" =
      (Except.ok recPlain, wBase, [Event.credGet, Event.getUserCall "alice@x.com"]) :=
  (claim8_getUserInfo_idempotent envBase wBase "alice@x.com" recPlain wBase
    [Event.credGet, Event.getUserCall "alice@x.com"] rfl).2.1

/-- Witness for C9: a refresh-token failure on the listing call propagates
as `AccessTokenRefreshError` itself. -/
theorem claim9_witness :
    IsInAdminGroup envListFail wBase userAlice =
      (Except.error PyError.accessTokenRefreshError, wBase,
       [Event.credGet, Event.getUserCall "alice@x.com"] ++
         Event.cacheGet (adminCacheKey envListFail) ::
           ([Event.credGet] ++
             [Event.listMembersCall (settingGet wBase "admin_group")])) :=
  (claim9_list_error_propagates envListFail wBase userAlice recPlain wBase
    [Event.credGet, Event.getUserCall "alice@x.com"]
    ⟨authorize cred0⟩ wBase [Event.credGet] rfl rfl rfl rfl rfl rfl).1

/-- Witness for C10: a record with no `isAdmin` key sends `alice@x.com`
to the group-membership path. -/
theorem claim10_witness :
    IsInAdminGroup envBase wBase userAlice =
      prependEvents [Event.credGet, Event.getUserCall "alice@x.com"]
        (adminGroupCheck envBase wBase userAlice) :=
  (claim10_isAdmin_truthiness envBase wBase userAlice recPlain wBase
    [Event.credGet, Event.getUserCall "alice@x.com"] rfl).2.2 (Or.inl rfl)
